import Mathlib

/-!
Verification of the URL-construction and result-caching behaviour of the
`Sources` and `Tags` classes of the `full_fred` FRED API client
(`new_fred/sources.py`, `new_fred/tags.py`).

The public methods are embedded as pure Lean functions over an explicit
instance state.  Python values that can appear as method arguments are
modelled by `PyVal`; the HTTP fetch helper `_fetch_data` (which lives
outside the two files under verification) is modelled as an oracle
`Fetch : String → Except PyErr Json` passed to each method.
-/

namespace FullFred

/-- Model of the Python values that flow into the URL-building code:
strings, ints, lists, and `bad`, which stands for an object whose
`str()` conversion raises `TypeError` (e.g. an object with a raising
`__str__`).  Lists of such values model Python lists/tuples. -/
inductive PyVal where
  | str (s : String)
  | int (n : Int)
  | list (xs : List PyVal)
  | bad

/-- Rendering of a single list element inside a list-valued parameter. -/
def renderElem : PyVal → String
  | .str s => s
  | .int n => toString n
  | _ => ""

/-- Modelled from the spec: how `_add_optional_params` (defined in
`fred_base.py`, outside the files under verification) renders a present
parameter value into the query string: "includes set ones verbatim" and
"list-valued parameters are joined with a fixed separator" (the
separator is ";").  Strings verbatim, ints in decimal, lists joined
with ";".  The spec does not describe values failing string coercion
inside optional parameters; `bad` renders as the empty string. -/
def renderVal : PyVal → String
  | .str s => s
  | .int n => toString n
  | .list xs => String.intercalate ";" (xs.map renderElem)
  | .bad => ""

/-- Python `str(v)`: succeeds on strings, ints and lists, and raises
`TypeError` on `bad` (the model of an object whose `__str__` raises). -/
def pyStr : PyVal → Except Unit String
  | .str s => .ok s
  | .int n => .ok (toString n)
  | .list xs => .ok ("[" ++ String.intercalate ", " (xs.map renderElem) ++ "]")
  | .bad => .error ()

/-- Extract a Python `str`, as `";".join` requires of every element. -/
def strOfVal : PyVal → Option String
  | .str s => some s
  | _ => none

/-- All elements of the list as strings, or `none` if some element is
not a string. -/
def strsOfVals : List PyVal → Option (List String)
  | [] => some []
  | x :: xs =>
    match strOfVal x with
    | none => none
    | some s =>
      match strsOfVals xs with
      | none => none
      | some ss => some (s :: ss)

/-- Python `";".join(v)`: joins a list whose elements are all strings,
joins the characters of a string (a `str` is an iterable of
one-character strings), and raises `TypeError` otherwise (non-iterable
argument, or a non-`str` element). -/
def pyJoin : PyVal → Except Unit String
  | .str s => .ok (String.intercalate ";" (s.data.map Char.toString))
  | .list xs =>
    match strsOfVals xs with
    | some ss => .ok (String.intercalate ";" ss)
    | none => .error ()
  | _ => .error ()

/-- Abstract parsed-JSON result returned by the fetch layer. -/
structure Json where
  val : Nat
deriving DecidableEq, Repr

/-- The Python exceptions the embedded methods can surface: an
exception raised by the HTTP layer or JSON parser inside `_fetch_data`
(carrying an arbitrary message), a `TypeError`, or a `KeyError`. -/
inductive PyErr where
  | fetchError (msg : String)
  | typeError
  | keyError (k : String)
deriving DecidableEq, Repr

/-- Modelled from the spec: `_fetch_data` (defined outside the files
under verification) issues the HTTP request for a URL and returns
parsed JSON; the spec says only that it "may raise" arbitrarily, with
no retry, backoff or translation.  It is modelled as an oracle. -/
def Fetch : Type := String → Except PyErr Json

/-- A fetch oracle that fails and echoes the requested URL inside the
error, used to observe which URL a method fetches. -/
def fetchEcho : Fetch := fun u => .error (.fetchError u)

/-- A fetch oracle that always succeeds with a fixed result. -/
def fetchConst : Fetch := fun _ => .ok ⟨0⟩

/-- A Python dict with string keys, in insertion order. -/
abbrev PyDict : Type := List (String × Json)

/-- Python `d[key]` on a dict: the value stored under `key`, if any. -/
def dictGet : PyDict → String → Option Json
  | [], _ => none
  | (k, v) :: d, key => if key = k then some v else dictGet d key

/-- Python `d[key] = v` on a dict: update in place if the key exists,
otherwise append the new entry. -/
def dictSet : PyDict → String → Json → PyDict
  | [], key, v => [(key, v)]
  | (k, w) :: d, key, v =>
    if key = k then (key, v) :: d else (k, w) :: dictSet d key v

/-- The mutable instance attributes of a `Tags` object (which, through
`Tags ⊂ Sources ⊂ Series ⊂ …`, carries both result mappings).
`realtime_start` and `realtime_end` are modelled from the spec: the
user-settable default realtime bounds consulted by
`_get_realtime_date`, "1776-07-04" (earliest) and "9999-12-31"
(latest) when not set by the user. -/
structure FredState where
  realtime_start : String
  realtime_end : String
  source_stack : PyDict
  tag_stack : PyDict
deriving DecidableEq, Repr

/-- The state after `Tags.__init__`: both result mappings empty, the
default realtime window covering all of time. -/
def initState : FredState := ⟨"1776-07-04", "9999-12-31", [], []⟩

/-- Modelled from the spec: `_add_optional_params` (defined in
`fred_base.py`, outside the files under verification).  Per the spec,
the flat mapping from parameter key to optional value is "filtered to
present entries and concatenated into a query string": each method
"omits unset parameters from the constructed URL and includes set ones
verbatim".  The mapping is traversed in insertion order. -/
def addOptionalParams (stem : String) (optionalArgs : List (String × Option PyVal)) : String :=
  optionalArgs.foldl
    (fun url p =>
      match p.2 with
      | none => url
      | some v => url ++ p.1 ++ renderVal v)
    stem

/-- Modelled from the spec: `_get_realtime_date` (defined outside the
files under verification) renders the realtime window, substituting
the instance default for each bound that is `None`. -/
def getRealtimeDate (st : FredState) (realtime_start realtime_end : Option PyVal) : String :=
  "&realtime_start="
    ++ (match realtime_start with
        | none => st.realtime_start
        | some v => renderVal v)
    ++ "&realtime_end="
    ++ (match realtime_end with
        | none => st.realtime_end
        | some v => renderVal v)

/-- The query fragment a single optional parameter contributes to the
URL: nothing when unset, its key followed by its rendered value when
set. -/
def frag (key : String) : Option PyVal → String
  | none => ""
  | some v => key ++ renderVal v

/-- Concatenation of the fragments of a parameter list. -/
def fragsOf : List (String × Option PyVal) → String
  | [] => ""
  | (k, v) :: rest => frag k v ++ fragsOf rest

/-- View of a method outcome used to decide equality of outcomes. -/
def exceptToSum : Except PyErr Json → PyErr ⊕ Json
  | .error e => .inl e
  | .ok a => .inr a

instance : DecidableEq (Except PyErr Json) := fun a b =>
  decidable_of_iff (exceptToSum a = exceptToSum b) (by cases a <;> cases b <;> simp [exceptToSum])

/-- The outcome of one method call on a live object: the value
returned (or the exception raised), the instance state after the call,
and the lines printed to stdout during it. -/
structure MRes where
  ret : Except PyErr Json
  state : FredState
  printed : List String
deriving DecidableEq, Repr

/-- URL built by `Sources.get_all_sources`: stem `"sources?"` plus the
optional parameters in the order of its `optional_args` dict. -/
def get_all_sources_url (realtime_start realtime_end limit offset order_by sort_order : Option PyVal) : String :=
  addOptionalParams "sources?"
    [("&realtime_start=", realtime_start), ("&realtime_end=", realtime_end),
     ("&limit=", limit), ("&offset=", offset),
     ("&order_by=", order_by), ("&sort_order=", sort_order)]

/-- `Sources.get_all_sources`. -/
def get_all_sources (fetch : Fetch) (st : FredState)
    (realtime_start realtime_end limit offset order_by sort_order : Option PyVal) : MRes :=
  let url := get_all_sources_url realtime_start realtime_end limit offset order_by sort_order
  match fetch url with
  | .error e => ⟨.error e, st, []⟩
  | .ok j =>
    let st2 : FredState := ⟨st.realtime_start, st.realtime_end,
      dictSet st.source_stack "get_all_sources" j, st.tag_stack⟩
    match dictGet st2.source_stack "get_all_sources" with
    | none => ⟨.error (.keyError "get_all_sources"), st2, []⟩
    | some r => ⟨.ok r, st2, []⟩

/-- The `try: url_prefix += str(source_id) except TypeError: print(...)`
block of `Sources.get_a_source`.  When `str(source_id)` raises
`TypeError`, the handler runs
`print("Unable to cast source_id %s to str" % source_id)`; the `%s`
formatting stringifies `source_id` a second time (the inner match),
raises `TypeError` again, and that second exception escapes the
handler. -/
def get_a_source_stem (source_id : PyVal) : Except PyErr (String × List String) :=
  match pyStr source_id with
  | .ok s => .ok ("source?source_id=" ++ s, [])
  | .error _ =>
    match pyStr source_id with
    | .ok s => .ok ("source?source_id=", ["Unable to cast source_id " ++ s ++ " to str"])
    | .error _ => .error .typeError

/-- URL built by `Sources.get_a_source` from the stem produced by the
`try` block. -/
def get_a_source_url (stem : String) (realtime_start realtime_end : Option PyVal) : String :=
  addOptionalParams stem [("&realtime_start=", realtime_start), ("&realtime_end=", realtime_end)]

/-- `Sources.get_a_source`. -/
def get_a_source (fetch : Fetch) (st : FredState) (source_id : PyVal)
    (realtime_start realtime_end : Option PyVal) : MRes :=
  match get_a_source_stem source_id with
  | .error e => ⟨.error e, st, []⟩
  | .ok (stem, printed) =>
    let url := get_a_source_url stem realtime_start realtime_end
    match fetch url with
    | .error e => ⟨.error e, st, printed⟩
    | .ok j =>
      let st2 : FredState := ⟨st.realtime_start, st.realtime_end,
        dictSet st.source_stack "get_a_source" j, st.tag_stack⟩
      match dictGet st2.source_stack "get_a_source" with
      | none => ⟨.error (.keyError "get_a_source"), st2, printed⟩
      | some r => ⟨.ok r, st2, printed⟩

/-- The `try`/`except TypeError` block of
`Sources.get_releases_for_a_source`, identical in shape to the one in
`get_a_source` (including the re-raising `print`). -/
def get_releases_for_a_source_stem (source_id : PyVal) : Except PyErr (String × List String) :=
  match pyStr source_id with
  | .ok s => .ok ("source/releases?source_id=" ++ s, [])
  | .error _ =>
    match pyStr source_id with
    | .ok s => .ok ("source/releases?source_id=", ["Unable to cast source_id " ++ s ++ " to str"])
    | .error _ => .error .typeError

/-- URL built by `Sources.get_releases_for_a_source` from its stem. -/
def get_releases_for_a_source_url (stem : String)
    (realtime_start realtime_end limit offset order_by sort_order : Option PyVal) : String :=
  addOptionalParams stem
    [("&realtime_start=", realtime_start), ("&realtime_end=", realtime_end),
     ("&limit=", limit), ("&offset=", offset),
     ("&order_by=", order_by), ("&sort_order=", sort_order)]

/-- `Sources.get_releases_for_a_source`. -/
def get_releases_for_a_source (fetch : Fetch) (st : FredState) (source_id : PyVal)
    (realtime_start realtime_end limit offset order_by sort_order : Option PyVal) : MRes :=
  match get_releases_for_a_source_stem source_id with
  | .error e => ⟨.error e, st, []⟩
  | .ok (stem, printed) =>
    let url := get_releases_for_a_source_url stem realtime_start realtime_end limit offset order_by sort_order
    match fetch url with
    | .error e => ⟨.error e, st, printed⟩
    | .ok j =>
      let st2 : FredState := ⟨st.realtime_start, st.realtime_end,
        dictSet st.source_stack "get_releases_for_a_source" j, st.tag_stack⟩
      match dictGet st2.source_stack "get_releases_for_a_source" with
      | none => ⟨.error (.keyError "get_releases_for_a_source"), st2, printed⟩
      | some r => ⟨.ok r, st2, printed⟩

/-- URL built by `Tags.get_tags`: stem `"tags?"` plus the optional
parameters in the order of its `optional_args` dict. -/
def get_tags_url (realtime_start realtime_end tag_names tag_group_id search_text
    limit offset order_by sort_order : Option PyVal) : String :=
  addOptionalParams "tags?"
    [("&realtime_start=", realtime_start), ("&realtime_end=", realtime_end),
     ("&tag_names=", tag_names), ("&tag_group_id=", tag_group_id),
     ("&search_text=", search_text), ("&limit=", limit), ("&offset=", offset),
     ("&order_by=", order_by), ("&sort_order=", sort_order)]

/-- `Tags.get_tags`. -/
def get_tags (fetch : Fetch) (st : FredState)
    (realtime_start realtime_end tag_names tag_group_id search_text
      limit offset order_by sort_order : Option PyVal) : MRes :=
  let url := get_tags_url realtime_start realtime_end tag_names tag_group_id search_text
    limit offset order_by sort_order
  match fetch url with
  | .error e => ⟨.error e, st, []⟩
  | .ok j =>
    let st2 : FredState := ⟨st.realtime_start, st.realtime_end,
      st.source_stack, dictSet st.tag_stack "get_tags" j⟩
    match dictGet st2.tag_stack "get_tags" with
    | none => ⟨.error (.keyError "get_tags"), st2, []⟩
    | some r => ⟨.ok r, st2, []⟩

/-- The `try: url_prefix += ";".join(tag_names) except TypeError:
print("tag_names must be list or tuple")` block of
`Tags.get_related_tags_for_a_tag`.  The handler prints a constant
message, so unlike the `source_id` handlers it does not re-raise. -/
def get_related_tags_for_a_tag_stem (tag_names : PyVal) : String × List String :=
  match pyJoin tag_names with
  | .ok s => ("related_tags?tag_names=" ++ s, [])
  | .error _ => ("related_tags?tag_names=", ["tag_names must be list or tuple"])

/-- URL built by `Tags.get_related_tags_for_a_tag` from its stem. -/
def get_related_tags_for_a_tag_url (stem : String)
    (realtime_start realtime_end exclude_tag_names tag_group_id search_text
      limit offset order_by sort_order : Option PyVal) : String :=
  addOptionalParams stem
    [("&realtime_start=", realtime_start), ("&realtime_end=", realtime_end),
     ("&exclude_tag_names=", exclude_tag_names), ("&tag_group_id=", tag_group_id),
     ("&search_text=", search_text), ("&limit=", limit), ("&offset=", offset),
     ("&order_by=", order_by), ("&sort_order=", sort_order)]

/-- `Tags.get_related_tags_for_a_tag`. -/
def get_related_tags_for_a_tag (fetch : Fetch) (st : FredState) (tag_names : PyVal)
    (realtime_start realtime_end exclude_tag_names tag_group_id search_text
      limit offset order_by sort_order : Option PyVal) : MRes :=
  let stem := (get_related_tags_for_a_tag_stem tag_names).1
  let printed := (get_related_tags_for_a_tag_stem tag_names).2
  let url := get_related_tags_for_a_tag_url stem realtime_start realtime_end
    exclude_tag_names tag_group_id search_text limit offset order_by sort_order
  match fetch url with
  | .error e => ⟨.error e, st, printed⟩
  | .ok j =>
    let st2 : FredState := ⟨st.realtime_start, st.realtime_end,
      st.source_stack, dictSet st.tag_stack "get_related_tags_for_a_tag" j⟩
    match dictGet st2.tag_stack "get_related_tags_for_a_tag" with
    | none => ⟨.error (.keyError "get_related_tags_for_a_tag"), st2, printed⟩
    | some r => ⟨.ok r, st2, printed⟩

/-- The `try`/`except TypeError` block of
`Tags.get_series_matching_tags` (constant-message handler, like
`get_related_tags_for_a_tag`). -/
def get_series_matching_tags_stem (tag_names : PyVal) : String × List String :=
  match pyJoin tag_names with
  | .ok s => ("tags/series?tag_names=" ++ s, [])
  | .error _ => ("tags/series?tag_names=", ["tag_names must be list or tuple"])

/-- URL fetched by `Tags.get_series_matching_tags`: its stem followed
by the realtime window from `_get_realtime_date`.  The method returns
right after the fetch, so none of its remaining optional parameters
reach the URL (the `optional_args` dict after the `return` statement is
dead code). -/
def get_series_matching_tags_url (st : FredState) (tag_names : PyVal)
    (realtime_start realtime_end : Option PyVal) : String :=
  (get_series_matching_tags_stem tag_names).1 ++ getRealtimeDate st realtime_start realtime_end

/-- `Tags.get_series_matching_tags`, embedded up to its `return`
statement; the code below the `return` (lines 256-267 of `tags.py`) is
unreachable and therefore not part of the call's behaviour. -/
def get_series_matching_tags (fetch : Fetch) (st : FredState) (tag_names : PyVal)
    (exclude_tag_names realtime_start realtime_end limit offset order_by sort_order : Option PyVal) : MRes :=
  let printed := (get_series_matching_tags_stem tag_names).2
  let url := get_series_matching_tags_url st tag_names realtime_start realtime_end
  match fetch url with
  | .error e => ⟨.error e, st, printed⟩
  | .ok j =>
    let st2 : FredState := ⟨st.realtime_start, st.realtime_end,
      st.source_stack, dictSet st.tag_stack "get_series_matching_tags" j⟩
    match dictGet st2.tag_stack "get_series_matching_tags" with
    | none => ⟨.error (.keyError "get_series_matching_tags"), st2, printed⟩
    | some r => ⟨.ok r, st2, printed⟩

/-- Definition following the spec's words: the pipeline every public
method is claimed to share — fetch the built URL, store the result in
the mapping under the method's name, return the stored result (an
exception from the fetch propagates and leaves the mapping
untouched). -/
def pipelineSpec (fetch : Fetch) (stack : PyDict) (key url : String) : Except PyErr Json × PyDict :=
  match fetch url with
  | .error e => (.error e, stack)
  | .ok j => (.ok j, dictSet stack key j)

/-- A state whose `source_stack` already holds an earlier
`get_all_sources` result, to exhibit overwriting. -/
def preState : FredState := ⟨"1776-07-04", "9999-12-31", [("get_all_sources", ⟨99⟩)], []⟩

/-- A state with entries in both result mappings, to exhibit the frame
property. -/
def mixedState : FredState :=
  ⟨"1900-01-01", "2000-01-01", [("get_a_source", ⟨1⟩)], [("get_tags", ⟨2⟩), ("other", ⟨3⟩)]⟩

theorem dictGet_dictSet_self (d : PyDict) (k : String) (v : Json) :
    dictGet (dictSet d k v) k = some v := by
  induction d with
  | nil => simp [dictSet, dictGet]
  | cons p d ih =>
    obtain ⟨k0, w⟩ := p
    by_cases h : k = k0
    · simp [dictSet, dictGet, h]
    · simp [dictSet, dictGet, h, ih]

theorem dictGet_dictSet_ne (d : PyDict) (k k2 : String) (v : Json) (h : k2 ≠ k) :
    dictGet (dictSet d k v) k2 = dictGet d k2 := by
  induction d with
  | nil => simp [dictSet, dictGet, h]
  | cons p d ih =>
    obtain ⟨k0, w⟩ := p
    by_cases h1 : k = k0
    · subst h1
      simp [dictSet, dictGet, h]
    · by_cases h2 : k2 = k0 <;> simp [dictSet, dictGet, h1, h2, ih]

theorem pipelineSpec_fetch_error (fetch : Fetch) (stack : PyDict) (key url : String) (e : PyErr)
    (hf : fetch url = .error e) :
    pipelineSpec fetch stack key url = (.error e, stack) := by
  simp [pipelineSpec, hf]

theorem pipelineSpec_fetch_ok (fetch : Fetch) (stack : PyDict) (key url : String) (j : Json)
    (hf : fetch url = .ok j) :
    pipelineSpec fetch stack key url = (.ok j, dictSet stack key j) := by
  simp [pipelineSpec, hf]

theorem addOptionalParams_eq_frags (optionalArgs : List (String × Option PyVal)) (stem : String) :
    addOptionalParams stem optionalArgs = stem ++ fragsOf optionalArgs := by
  induction optionalArgs generalizing stem with
  | nil => simp [addOptionalParams, fragsOf]
  | cons p rest ih =>
    obtain ⟨k, v⟩ := p
    cases v with
    | none =>
      show addOptionalParams stem rest = stem ++ fragsOf ((k, none) :: rest)
      rw [ih]
      simp [fragsOf, frag]
    | some x =>
      show addOptionalParams (stem ++ k ++ renderVal x) rest = stem ++ fragsOf ((k, some x) :: rest)
      rw [ih]
      simp [fragsOf, frag, String.append_assoc]

theorem strsOfVals_map_str (names : List String) :
    strsOfVals (names.map PyVal.str) = some names := by
  induction names with
  | nil => rfl
  | cons a rest ih => simp [strsOfVals, strOfVal, ih]

theorem pyJoin_list_str (names : List String) :
    pyJoin (.list (names.map .str)) = .ok (String.intercalate ";" names) := by
  simp [pyJoin, strsOfVals_map_str]

theorem get_all_sources_pipeline (fetch : Fetch) (st : FredState)
    (realtime_start realtime_end limit offset order_by sort_order : Option PyVal) :
    get_all_sources fetch st realtime_start realtime_end limit offset order_by sort_order
      = ⟨(pipelineSpec fetch st.source_stack "get_all_sources"
            (get_all_sources_url realtime_start realtime_end limit offset order_by sort_order)).1,
         ⟨st.realtime_start, st.realtime_end,
          (pipelineSpec fetch st.source_stack "get_all_sources"
            (get_all_sources_url realtime_start realtime_end limit offset order_by sort_order)).2,
          st.tag_stack⟩, []⟩ := by
  cases hf : fetch (get_all_sources_url realtime_start realtime_end limit offset order_by sort_order) <;>
    simp [get_all_sources, pipelineSpec, hf, dictGet_dictSet_self]

theorem get_a_source_pipeline (fetch : Fetch) (st : FredState) (source_id : PyVal)
    (realtime_start realtime_end : Option PyVal) (stem : String) (printed : List String)
    (h : get_a_source_stem source_id = .ok (stem, printed)) :
    get_a_source fetch st source_id realtime_start realtime_end
      = ⟨(pipelineSpec fetch st.source_stack "get_a_source"
            (get_a_source_url stem realtime_start realtime_end)).1,
         ⟨st.realtime_start, st.realtime_end,
          (pipelineSpec fetch st.source_stack "get_a_source"
            (get_a_source_url stem realtime_start realtime_end)).2,
          st.tag_stack⟩, printed⟩ := by
  cases hf : fetch (get_a_source_url stem realtime_start realtime_end) <;>
    simp [get_a_source, pipelineSpec, h, hf, dictGet_dictSet_self]

theorem get_releases_for_a_source_pipeline (fetch : Fetch) (st : FredState) (source_id : PyVal)
    (realtime_start realtime_end limit offset order_by sort_order : Option PyVal)
    (stem : String) (printed : List String)
    (h : get_releases_for_a_source_stem source_id = .ok (stem, printed)) :
    get_releases_for_a_source fetch st source_id realtime_start realtime_end limit offset order_by sort_order
      = ⟨(pipelineSpec fetch st.source_stack "get_releases_for_a_source"
            (get_releases_for_a_source_url stem realtime_start realtime_end limit offset order_by sort_order)).1,
         ⟨st.realtime_start, st.realtime_end,
          (pipelineSpec fetch st.source_stack "get_releases_for_a_source"
            (get_releases_for_a_source_url stem realtime_start realtime_end limit offset order_by sort_order)).2,
          st.tag_stack⟩, printed⟩ := by
  cases hf : fetch (get_releases_for_a_source_url stem realtime_start realtime_end limit offset order_by sort_order) <;>
    simp [get_releases_for_a_source, pipelineSpec, h, hf, dictGet_dictSet_self]

theorem get_tags_pipeline (fetch : Fetch) (st : FredState)
    (realtime_start realtime_end tag_names tag_group_id search_text
      limit offset order_by sort_order : Option PyVal) :
    get_tags fetch st realtime_start realtime_end tag_names tag_group_id search_text
        limit offset order_by sort_order
      = ⟨(pipelineSpec fetch st.tag_stack "get_tags"
            (get_tags_url realtime_start realtime_end tag_names tag_group_id search_text
              limit offset order_by sort_order)).1,
         ⟨st.realtime_start, st.realtime_end, st.source_stack,
          (pipelineSpec fetch st.tag_stack "get_tags"
            (get_tags_url realtime_start realtime_end tag_names tag_group_id search_text
              limit offset order_by sort_order)).2⟩, []⟩ := by
  cases hf : fetch (get_tags_url realtime_start realtime_end tag_names tag_group_id search_text
      limit offset order_by sort_order) <;>
    simp [get_tags, pipelineSpec, hf, dictGet_dictSet_self]

theorem get_related_tags_for_a_tag_pipeline (fetch : Fetch) (st : FredState) (tag_names : PyVal)
    (realtime_start realtime_end exclude_tag_names tag_group_id search_text
      limit offset order_by sort_order : Option PyVal) :
    get_related_tags_for_a_tag fetch st tag_names realtime_start realtime_end
        exclude_tag_names tag_group_id search_text limit offset order_by sort_order
      = ⟨(pipelineSpec fetch st.tag_stack "get_related_tags_for_a_tag"
            (get_related_tags_for_a_tag_url (get_related_tags_for_a_tag_stem tag_names).1
              realtime_start realtime_end exclude_tag_names tag_group_id search_text
              limit offset order_by sort_order)).1,
         ⟨st.realtime_start, st.realtime_end, st.source_stack,
          (pipelineSpec fetch st.tag_stack "get_related_tags_for_a_tag"
            (get_related_tags_for_a_tag_url (get_related_tags_for_a_tag_stem tag_names).1
              realtime_start realtime_end exclude_tag_names tag_group_id search_text
              limit offset order_by sort_order)).2⟩,
         (get_related_tags_for_a_tag_stem tag_names).2⟩ := by
  cases hf : fetch (get_related_tags_for_a_tag_url (get_related_tags_for_a_tag_stem tag_names).1
      realtime_start realtime_end exclude_tag_names tag_group_id search_text
      limit offset order_by sort_order) <;>
    simp [get_related_tags_for_a_tag, pipelineSpec, hf, dictGet_dictSet_self]

theorem get_series_matching_tags_pipeline (fetch : Fetch) (st : FredState) (tag_names : PyVal)
    (exclude_tag_names realtime_start realtime_end limit offset order_by sort_order : Option PyVal) :
    get_series_matching_tags fetch st tag_names exclude_tag_names realtime_start realtime_end
        limit offset order_by sort_order
      = ⟨(pipelineSpec fetch st.tag_stack "get_series_matching_tags"
            (get_series_matching_tags_url st tag_names realtime_start realtime_end)).1,
         ⟨st.realtime_start, st.realtime_end, st.source_stack,
          (pipelineSpec fetch st.tag_stack "get_series_matching_tags"
            (get_series_matching_tags_url st tag_names realtime_start realtime_end)).2⟩,
         (get_series_matching_tags_stem tag_names).2⟩ := by
  cases hf : fetch (get_series_matching_tags_url st tag_names realtime_start realtime_end) <;>
    simp [get_series_matching_tags, pipelineSpec, hf, dictGet_dictSet_self]

theorem pipelineSpec_ok_lookup (fetch : Fetch) (stack : PyDict) (key url : String) (r : Json)
    (h : (pipelineSpec fetch stack key url).1 = .ok r) :
    dictGet (pipelineSpec fetch stack key url).2 key = some r := by
  cases hf : fetch url with
  | error e =>
    rw [pipelineSpec_fetch_error fetch stack key url e hf] at h
    exact Except.noConfusion h
  | ok j =>
    rw [pipelineSpec_fetch_ok fetch stack key url j hf] at h ⊢
    simp at h
    simp [dictGet_dictSet_self, h]

theorem pipelineSpec_frame (fetch : Fetch) (stack : PyDict) (key url k : String)
    (hk : k ≠ key) :
    dictGet (pipelineSpec fetch stack key url).2 k = dictGet stack k := by
  cases hf : fetch url with
  | error e => rw [pipelineSpec_fetch_error fetch stack key url e hf]
  | ok j =>
    rw [pipelineSpec_fetch_ok fetch stack key url j hf]
    exact dictGet_dictSet_ne stack key k j hk

/-- C1: for every public method with optional parameters
(`get_all_sources`, `get_a_source`, `get_releases_for_a_source`,
`get_tags`, `get_related_tags_for_a_tag`) and every assignment of its
optional parameters, the constructed URL omits every parameter whose
value is `None` (its fragment is empty) and includes, for every set
parameter, that parameter's query fragment (`frag`) with the given
value verbatim, in the order of the method's `optional_args` dict. -/
theorem c1_optional_params_filtered_verbatim :
    (∀ rs re l o ob so : Option PyVal,
      get_all_sources_url rs re l o ob so
        = "sources?" ++ frag "&realtime_start=" rs ++ frag "&realtime_end=" re
            ++ frag "&limit=" l ++ frag "&offset=" o
            ++ frag "&order_by=" ob ++ frag "&sort_order=" so)
  ∧ (∀ (stem : String) (rs re : Option PyVal),
      get_a_source_url stem rs re
        = stem ++ frag "&realtime_start=" rs ++ frag "&realtime_end=" re)
  ∧ (∀ (stem : String) (rs re l o ob so : Option PyVal),
      get_releases_for_a_source_url stem rs re l o ob so
        = stem ++ frag "&realtime_start=" rs ++ frag "&realtime_end=" re
            ++ frag "&limit=" l ++ frag "&offset=" o
            ++ frag "&order_by=" ob ++ frag "&sort_order=" so)
  ∧ (∀ rs re tn tg se l o ob so : Option PyVal,
      get_tags_url rs re tn tg se l o ob so
        = "tags?" ++ frag "&realtime_start=" rs ++ frag "&realtime_end=" re
            ++ frag "&tag_names=" tn ++ frag "&tag_group_id=" tg ++ frag "&search_text=" se
            ++ frag "&limit=" l ++ frag "&offset=" o
            ++ frag "&order_by=" ob ++ frag "&sort_order=" so)
  ∧ (∀ (stem : String) (rs re ex tg se l o ob so : Option PyVal),
      get_related_tags_for_a_tag_url stem rs re ex tg se l o ob so
        = stem ++ frag "&realtime_start=" rs ++ frag "&realtime_end=" re
            ++ frag "&exclude_tag_names=" ex ++ frag "&tag_group_id=" tg ++ frag "&search_text=" se
            ++ frag "&limit=" l ++ frag "&offset=" o
            ++ frag "&order_by=" ob ++ frag "&sort_order=" so) := by
  refine ⟨?_, ?_, ?_, ?_, ?_⟩ <;> intros <;>
    simp [get_all_sources_url, get_a_source_url, get_releases_for_a_source_url, get_tags_url,
      get_related_tags_for_a_tag_url, addOptionalParams_eq_frags, fragsOf, String.append_assoc]

/-- C3: for the list-valued required parameter `tag_names` of
`get_related_tags_for_a_tag` and `get_series_matching_tags`, when the
argument is a list of strings, its elements appear in the constructed
URL joined in order by the single fixed separator ";": the stems carry
the join, and (quantifying the fetch-oracle observation over all
states, with the optional parameters unset) the URL actually fetched
starts with the stem carrying the join. -/
theorem c3_tag_names_joined_with_semicolon : ∀ (st : FredState) (names : List String),
    get_related_tags_for_a_tag_stem (.list (names.map .str))
        = ("related_tags?tag_names=" ++ String.intercalate ";" names, [])
  ∧ get_series_matching_tags_stem (.list (names.map .str))
        = ("tags/series?tag_names=" ++ String.intercalate ";" names, [])
  ∧ (get_related_tags_for_a_tag fetchEcho st (.list (names.map .str))
        none none none none none none none none none).ret
        = .error (.fetchError ("related_tags?tag_names=" ++ String.intercalate ";" names))
  ∧ (get_series_matching_tags fetchEcho st (.list (names.map .str))
        none none none none none none none).ret
        = .error (.fetchError ("tags/series?tag_names=" ++ String.intercalate ";" names
            ++ "&realtime_start=" ++ st.realtime_start ++ "&realtime_end=" ++ st.realtime_end)) := by
  intro st names
  refine ⟨?_, ?_, ?_, ?_⟩
  · simp [get_related_tags_for_a_tag_stem, pyJoin_list_str]
  · simp [get_series_matching_tags_stem, pyJoin_list_str]
  · simp [get_related_tags_for_a_tag, fetchEcho, get_related_tags_for_a_tag_url,
      get_related_tags_for_a_tag_stem, pyJoin_list_str, addOptionalParams]
  · simp [get_series_matching_tags, fetchEcho, get_series_matching_tags_url,
      get_series_matching_tags_stem, pyJoin_list_str, getRealtimeDate, String.append_assoc]

/-- C8: for every two calls of `get_series_matching_tags` whose
`tag_names`, `realtime_start` and `realtime_end` arguments are equal,
the whole call outcome (returned value, instance state, printed
output, hence in particular the fetched URL) is the same regardless of
`exclude_tag_names`, `limit`, `offset`, `order_by` and `sort_order`:
the method returns before the code that would use them (lines 256-267
of `tags.py` are unreachable, so the undefined names there are never
evaluated and cannot raise). -/
theorem c8_dead_params_never_influence_request :
    ∀ (fetch : Fetch) (st : FredState) (tn : PyVal) (rs re : Option PyVal)
      (ex1 l1 o1 ob1 so1 ex2 l2 o2 ob2 so2 : Option PyVal),
    get_series_matching_tags fetch st tn ex1 rs re l1 o1 ob1 so1
      = get_series_matching_tags fetch st tn ex2 rs re l2 o2 ob2 so2 := by
  intros
  rfl

/-- C10: under the declared precondition that `source_id` is an int,
the `TypeError` handler wrapping `str(source_id)` in `get_a_source`
and `get_releases_for_a_source` is unreachable: the conversion
succeeds, nothing is printed, and the URL stem is the endpoint prefix
followed by the decimal rendering of `source_id`. -/
theorem c10_int_source_id_never_trips_handler : ∀ n : Int,
    get_a_source_stem (.int n) = .ok ("source?source_id=" ++ toString n, [])
  ∧ get_releases_for_a_source_stem (.int n)
      = .ok ("source/releases?source_id=" ++ toString n, []) := by
  intro n
  exact ⟨rfl, rfl⟩

/-- C7: for every call of `get_series_matching_tags`, the fetched URL
is the prefix `"tags/series?tag_names="` followed by the joined tag
names and then a realtime-date window derived from `realtime_start`
and `realtime_end`, where the instance default (initially
"1776-07-04" / "9999-12-31") is substituted for each of the two bounds
that is `None`.  The first conjunct observes, through the echoing
fetch oracle, that the fetched URL is `get_series_matching_tags_url`;
the second decomposes that URL. -/
theorem c7_series_url_is_stem_join_realtime_window :
    (∀ (st : FredState) (tn : PyVal) (ex rs re l o ob so : Option PyVal),
      (get_series_matching_tags fetchEcho st tn ex rs re l o ob so).ret
        = .error (.fetchError (get_series_matching_tags_url st tn rs re)))
  ∧ (∀ (st : FredState) (tn : PyVal) (s : String) (rs re : Option PyVal),
      pyJoin tn = .ok s →
      get_series_matching_tags_url st tn rs re
        = "tags/series?tag_names=" ++ s
            ++ "&realtime_start="
            ++ (match rs with | none => st.realtime_start | some v => renderVal v)
            ++ "&realtime_end="
            ++ (match re with | none => st.realtime_end | some v => renderVal v)) := by
  constructor
  · intro st tn ex rs re l o ob so
    simp [get_series_matching_tags, fetchEcho]
  · intro st tn s rs re h
    cases rs <;> cases re <;>
      simp [get_series_matching_tags_url, get_series_matching_tags_stem, getRealtimeDate, h,
        String.append_assoc]

/-- Witness for C7 at a concrete input. -/
theorem c7_series_url_is_stem_join_realtime_window_witness :
    pyJoin (PyVal.list [.str "gdp", .str "japan"]) = .ok "gdp;japan"
  ∧ get_series_matching_tags_url initState (.list [.str "gdp", .str "japan"])
        none (some (.str "2020-01-01"))
      = "tags/series?tag_names=" ++ "gdp;japan"
          ++ "&realtime_start=" ++ "1776-07-04"
          ++ "&realtime_end=" ++ "2020-01-01" :=
  ⟨rfl, c7_series_url_is_stem_join_realtime_window.2 initState (.list [.str "gdp", .str "japan"])
    "gdp;japan" none (some (.str "2020-01-01")) rfl⟩

/-- C5: after every normally-returning call of a public method, the
per-instance result mapping maps the method's name to exactly the
returned value, whatever was stored there before (last write wins). -/
theorem c5_result_cached_under_method_name_last_write_wins :
    (∀ (fetch : Fetch) (st : FredState) (rs re l o ob so : Option PyVal) (r : Json),
      (get_all_sources fetch st rs re l o ob so).ret = .ok r →
      dictGet (get_all_sources fetch st rs re l o ob so).state.source_stack "get_all_sources"
        = some r)
  ∧ (∀ (fetch : Fetch) (st : FredState) (sid : PyVal) (rs re : Option PyVal) (r : Json),
      (get_a_source fetch st sid rs re).ret = .ok r →
      dictGet (get_a_source fetch st sid rs re).state.source_stack "get_a_source" = some r)
  ∧ (∀ (fetch : Fetch) (st : FredState) (sid : PyVal) (rs re l o ob so : Option PyVal) (r : Json),
      (get_releases_for_a_source fetch st sid rs re l o ob so).ret = .ok r →
      dictGet (get_releases_for_a_source fetch st sid rs re l o ob so).state.source_stack
        "get_releases_for_a_source" = some r)
  ∧ (∀ (fetch : Fetch) (st : FredState) (rs re tn tg se l o ob so : Option PyVal) (r : Json),
      (get_tags fetch st rs re tn tg se l o ob so).ret = .ok r →
      dictGet (get_tags fetch st rs re tn tg se l o ob so).state.tag_stack "get_tags" = some r)
  ∧ (∀ (fetch : Fetch) (st : FredState) (tn : PyVal) (rs re ex tg se l o ob so : Option PyVal) (r : Json),
      (get_related_tags_for_a_tag fetch st tn rs re ex tg se l o ob so).ret = .ok r →
      dictGet (get_related_tags_for_a_tag fetch st tn rs re ex tg se l o ob so).state.tag_stack
        "get_related_tags_for_a_tag" = some r)
  ∧ (∀ (fetch : Fetch) (st : FredState) (tn : PyVal) (ex rs re l o ob so : Option PyVal) (r : Json),
      (get_series_matching_tags fetch st tn ex rs re l o ob so).ret = .ok r →
      dictGet (get_series_matching_tags fetch st tn ex rs re l o ob so).state.tag_stack
        "get_series_matching_tags" = some r) := by
  refine ⟨?_, ?_, ?_, ?_, ?_, ?_⟩
  · intro fetch st rs re l o ob so r h
    rw [get_all_sources_pipeline] at h ⊢
    exact pipelineSpec_ok_lookup _ _ _ _ _ h
  · intro fetch st sid rs re r h
    cases hst : get_a_source_stem sid with
    | error e => simp [get_a_source, hst] at h
    | ok p =>
      obtain ⟨stem, pr⟩ := p
      rw [get_a_source_pipeline fetch st sid rs re stem pr hst] at h ⊢
      exact pipelineSpec_ok_lookup _ _ _ _ _ h
  · intro fetch st sid rs re l o ob so r h
    cases hst : get_releases_for_a_source_stem sid with
    | error e => simp [get_releases_for_a_source, hst] at h
    | ok p =>
      obtain ⟨stem, pr⟩ := p
      rw [get_releases_for_a_source_pipeline fetch st sid rs re l o ob so stem pr hst] at h ⊢
      exact pipelineSpec_ok_lookup _ _ _ _ _ h
  · intro fetch st rs re tn tg se l o ob so r h
    rw [get_tags_pipeline] at h ⊢
    exact pipelineSpec_ok_lookup _ _ _ _ _ h
  · intro fetch st tn rs re ex tg se l o ob so r h
    rw [get_related_tags_for_a_tag_pipeline] at h ⊢
    exact pipelineSpec_ok_lookup _ _ _ _ _ h
  · intro fetch st tn ex rs re l o ob so r h
    rw [get_series_matching_tags_pipeline] at h ⊢
    exact pipelineSpec_ok_lookup _ _ _ _ _ h

/-- Witness for C5: a call on a state whose mapping already holds an
earlier result under the same name; the new result overwrites it. -/
theorem c5_result_cached_under_method_name_last_write_wins_witness :
    dictGet preState.source_stack "get_all_sources" = some ⟨99⟩
  ∧ (get_all_sources fetchConst preState none none none none none none).ret = .ok ⟨0⟩
  ∧ dictGet (get_all_sources fetchConst preState none none none none none none).state.source_stack
      "get_all_sources" = some ⟨0⟩ :=
  ⟨rfl, rfl,
    c5_result_cached_under_method_name_last_write_wins.1 fetchConst preState
      none none none none none none ⟨0⟩ rfl⟩

/-- C6: if the fetch raises, every public method propagates exactly
that exception, with no retry and no translation, and leaves the
instance state (in particular both result mappings) unchanged. -/
theorem c6_fetch_exception_propagates_unchanged_state :
    (∀ (fetch : Fetch) (st : FredState) (rs re l o ob so : Option PyVal) (e : PyErr),
      fetch (get_all_sources_url rs re l o ob so) = .error e →
      get_all_sources fetch st rs re l o ob so = ⟨.error e, st, []⟩)
  ∧ (∀ (fetch : Fetch) (st : FredState) (sid : PyVal) (rs re : Option PyVal)
        (stem : String) (pr : List String) (e : PyErr),
      get_a_source_stem sid = .ok (stem, pr) →
      fetch (get_a_source_url stem rs re) = .error e →
      get_a_source fetch st sid rs re = ⟨.error e, st, pr⟩)
  ∧ (∀ (fetch : Fetch) (st : FredState) (sid : PyVal) (rs re l o ob so : Option PyVal)
        (stem : String) (pr : List String) (e : PyErr),
      get_releases_for_a_source_stem sid = .ok (stem, pr) →
      fetch (get_releases_for_a_source_url stem rs re l o ob so) = .error e →
      get_releases_for_a_source fetch st sid rs re l o ob so = ⟨.error e, st, pr⟩)
  ∧ (∀ (fetch : Fetch) (st : FredState) (rs re tn tg se l o ob so : Option PyVal) (e : PyErr),
      fetch (get_tags_url rs re tn tg se l o ob so) = .error e →
      get_tags fetch st rs re tn tg se l o ob so = ⟨.error e, st, []⟩)
  ∧ (∀ (fetch : Fetch) (st : FredState) (tn : PyVal) (rs re ex tg se l o ob so : Option PyVal) (e : PyErr),
      fetch (get_related_tags_for_a_tag_url (get_related_tags_for_a_tag_stem tn).1
          rs re ex tg se l o ob so) = .error e →
      get_related_tags_for_a_tag fetch st tn rs re ex tg se l o ob so
        = ⟨.error e, st, (get_related_tags_for_a_tag_stem tn).2⟩)
  ∧ (∀ (fetch : Fetch) (st : FredState) (tn : PyVal) (ex rs re l o ob so : Option PyVal) (e : PyErr),
      fetch (get_series_matching_tags_url st tn rs re) = .error e →
      get_series_matching_tags fetch st tn ex rs re l o ob so
        = ⟨.error e, st, (get_series_matching_tags_stem tn).2⟩) := by
  refine ⟨?_, ?_, ?_, ?_, ?_, ?_⟩
  · intro fetch st rs re l o ob so e hf
    rw [get_all_sources_pipeline, pipelineSpec_fetch_error _ _ _ _ _ hf]
  · intro fetch st sid rs re stem pr e hst hf
    rw [get_a_source_pipeline fetch st sid rs re stem pr hst,
      pipelineSpec_fetch_error _ _ _ _ _ hf]
  · intro fetch st sid rs re l o ob so stem pr e hst hf
    rw [get_releases_for_a_source_pipeline fetch st sid rs re l o ob so stem pr hst,
      pipelineSpec_fetch_error _ _ _ _ _ hf]
  · intro fetch st rs re tn tg se l o ob so e hf
    rw [get_tags_pipeline, pipelineSpec_fetch_error _ _ _ _ _ hf]
  · intro fetch st tn rs re ex tg se l o ob so e hf
    rw [get_related_tags_for_a_tag_pipeline, pipelineSpec_fetch_error _ _ _ _ _ hf]
  · intro fetch st tn ex rs re l o ob so e hf
    rw [get_series_matching_tags_pipeline, pipelineSpec_fetch_error _ _ _ _ _ hf]

/-- Witness for C6 at a concrete failing fetch. -/
theorem c6_fetch_exception_propagates_unchanged_state_witness :
    get_all_sources fetchEcho initState none none none none none none
      = ⟨.error (.fetchError "sources?"), initState, []⟩ :=
  c6_fetch_exception_propagates_unchanged_state.1 fetchEcho initState
    none none none none none none (.fetchError "sources?") rfl

/-- C9: a normally-returning public method call changes its own key in
its own result mapping and nothing else: every other key of that
mapping, the entire other mapping, and the remaining instance
attributes (the default realtime bounds) are unchanged. -/
theorem c9_only_own_key_modified :
    (∀ (fetch : Fetch) (st : FredState) (rs re l o ob so : Option PyVal) (r : Json),
      (get_all_sources fetch st rs re l o ob so).ret = .ok r →
      (∀ k, k ≠ "get_all_sources" →
        dictGet (get_all_sources fetch st rs re l o ob so).state.source_stack k
          = dictGet st.source_stack k)
      ∧ (get_all_sources fetch st rs re l o ob so).state.tag_stack = st.tag_stack
      ∧ (get_all_sources fetch st rs re l o ob so).state.realtime_start = st.realtime_start
      ∧ (get_all_sources fetch st rs re l o ob so).state.realtime_end = st.realtime_end)
  ∧ (∀ (fetch : Fetch) (st : FredState) (sid : PyVal) (rs re : Option PyVal) (r : Json),
      (get_a_source fetch st sid rs re).ret = .ok r →
      (∀ k, k ≠ "get_a_source" →
        dictGet (get_a_source fetch st sid rs re).state.source_stack k
          = dictGet st.source_stack k)
      ∧ (get_a_source fetch st sid rs re).state.tag_stack = st.tag_stack
      ∧ (get_a_source fetch st sid rs re).state.realtime_start = st.realtime_start
      ∧ (get_a_source fetch st sid rs re).state.realtime_end = st.realtime_end)
  ∧ (∀ (fetch : Fetch) (st : FredState) (sid : PyVal) (rs re l o ob so : Option PyVal) (r : Json),
      (get_releases_for_a_source fetch st sid rs re l o ob so).ret = .ok r →
      (∀ k, k ≠ "get_releases_for_a_source" →
        dictGet (get_releases_for_a_source fetch st sid rs re l o ob so).state.source_stack k
          = dictGet st.source_stack k)
      ∧ (get_releases_for_a_source fetch st sid rs re l o ob so).state.tag_stack = st.tag_stack
      ∧ (get_releases_for_a_source fetch st sid rs re l o ob so).state.realtime_start
          = st.realtime_start
      ∧ (get_releases_for_a_source fetch st sid rs re l o ob so).state.realtime_end
          = st.realtime_end)
  ∧ (∀ (fetch : Fetch) (st : FredState) (rs re tn tg se l o ob so : Option PyVal) (r : Json),
      (get_tags fetch st rs re tn tg se l o ob so).ret = .ok r →
      (∀ k, k ≠ "get_tags" →
        dictGet (get_tags fetch st rs re tn tg se l o ob so).state.tag_stack k
          = dictGet st.tag_stack k)
      ∧ (get_tags fetch st rs re tn tg se l o ob so).state.source_stack = st.source_stack
      ∧ (get_tags fetch st rs re tn tg se l o ob so).state.realtime_start = st.realtime_start
      ∧ (get_tags fetch st rs re tn tg se l o ob so).state.realtime_end = st.realtime_end)
  ∧ (∀ (fetch : Fetch) (st : FredState) (tn : PyVal) (rs re ex tg se l o ob so : Option PyVal) (r : Json),
      (get_related_tags_for_a_tag fetch st tn rs re ex tg se l o ob so).ret = .ok r →
      (∀ k, k ≠ "get_related_tags_for_a_tag" →
        dictGet (get_related_tags_for_a_tag fetch st tn rs re ex tg se l o ob so).state.tag_stack k
          = dictGet st.tag_stack k)
      ∧ (get_related_tags_for_a_tag fetch st tn rs re ex tg se l o ob so).state.source_stack
          = st.source_stack
      ∧ (get_related_tags_for_a_tag fetch st tn rs re ex tg se l o ob so).state.realtime_start
          = st.realtime_start
      ∧ (get_related_tags_for_a_tag fetch st tn rs re ex tg se l o ob so).state.realtime_end
          = st.realtime_end)
  ∧ (∀ (fetch : Fetch) (st : FredState) (tn : PyVal) (ex rs re l o ob so : Option PyVal) (r : Json),
      (get_series_matching_tags fetch st tn ex rs re l o ob so).ret = .ok r →
      (∀ k, k ≠ "get_series_matching_tags" →
        dictGet (get_series_matching_tags fetch st tn ex rs re l o ob so).state.tag_stack k
          = dictGet st.tag_stack k)
      ∧ (get_series_matching_tags fetch st tn ex rs re l o ob so).state.source_stack
          = st.source_stack
      ∧ (get_series_matching_tags fetch st tn ex rs re l o ob so).state.realtime_start
          = st.realtime_start
      ∧ (get_series_matching_tags fetch st tn ex rs re l o ob so).state.realtime_end
          = st.realtime_end) := by
  refine ⟨?_, ?_, ?_, ?_, ?_, ?_⟩
  · intro fetch st rs re l o ob so r _h
    rw [get_all_sources_pipeline]
    exact ⟨fun k hk => pipelineSpec_frame _ _ _ _ _ hk, rfl, rfl, rfl⟩
  · intro fetch st sid rs re r h
    cases hst : get_a_source_stem sid with
    | error e => simp [get_a_source, hst] at h
    | ok p =>
      obtain ⟨stem, pr⟩ := p
      rw [get_a_source_pipeline fetch st sid rs re stem pr hst]
      exact ⟨fun k hk => pipelineSpec_frame _ _ _ _ _ hk, rfl, rfl, rfl⟩
  · intro fetch st sid rs re l o ob so r h
    cases hst : get_releases_for_a_source_stem sid with
    | error e => simp [get_releases_for_a_source, hst] at h
    | ok p =>
      obtain ⟨stem, pr⟩ := p
      rw [get_releases_for_a_source_pipeline fetch st sid rs re l o ob so stem pr hst]
      exact ⟨fun k hk => pipelineSpec_frame _ _ _ _ _ hk, rfl, rfl, rfl⟩
  · intro fetch st rs re tn tg se l o ob so r _h
    rw [get_tags_pipeline]
    exact ⟨fun k hk => pipelineSpec_frame _ _ _ _ _ hk, rfl, rfl, rfl⟩
  · intro fetch st tn rs re ex tg se l o ob so r _h
    rw [get_related_tags_for_a_tag_pipeline]
    exact ⟨fun k hk => pipelineSpec_frame _ _ _ _ _ hk, rfl, rfl, rfl⟩
  · intro fetch st tn ex rs re l o ob so r _h
    rw [get_series_matching_tags_pipeline]
    exact ⟨fun k hk => pipelineSpec_frame _ _ _ _ _ hk, rfl, rfl, rfl⟩

/-- Witness for C9: calling `get_tags` on a state with entries in both
mappings leaves the other key of `tag_stack`, the whole
`source_stack`, and the realtime defaults unchanged. -/
theorem c9_only_own_key_modified_witness :
    dictGet (get_tags fetchConst mixedState none none none none none none none none none).state.tag_stack
      "other" = some ⟨3⟩
  ∧ (get_tags fetchConst mixedState none none none none none none none none none).state.source_stack
      = mixedState.source_stack
  ∧ (get_tags fetchConst mixedState none none none none none none none none none).state.realtime_start
      = "1900-01-01" := by
  have h := c9_only_own_key_modified.2.2.2.1 fetchConst mixedState
    none none none none none none none none none ⟨0⟩ rfl
  exact ⟨(h.1 "other" (by decide)).trans rfl, h.2.1, h.2.2.1.trans rfl⟩

/-- Counterexample to C2 as stated: `get_series_matching_tags` does
not append its present optional parameters to the URL.  With
`limit = 5` set, the URL it actually fetches (observed through the
echoing oracle) carries no `&limit=5` fragment, while the pipeline of
the claim, fed the same stem and optional parameters, fetches a URL
that does; the two URLs differ. -/
theorem c2_counterexample :
    (get_series_matching_tags fetchEcho initState (.list [.str "a"]) none none none
        (some (.int 5)) none none none).ret
      = .error (.fetchError
          "tags/series?tag_names=a&realtime_start=1776-07-04&realtime_end=9999-12-31")
  ∧ (pipelineSpec fetchEcho initState.tag_stack "get_series_matching_tags"
        (addOptionalParams "tags/series?tag_names=a"
          [("&exclude_tag_names=", none), ("&realtime_start=", none), ("&realtime_end=", none),
           ("&limit=", some (.int 5)), ("&offset=", none), ("&order_by=", none),
           ("&sort_order=", none)])).1
      = .error (.fetchError "tags/series?tag_names=a&limit=5")
  ∧ ("tags/series?tag_names=a&realtime_start=1776-07-04&realtime_end=9999-12-31" : String)
      ≠ "tags/series?tag_names=a&limit=5" :=
  ⟨rfl, rfl, by decide⟩

/-- C2 as amended: every public method of `Sources` and `Tags`
follows the fetch-cache-return pipeline (`pipelineSpec`) on its own
mapping and method name, and every method except
`get_series_matching_tags` builds its URL by appending its present
optional parameters to the stem; `get_series_matching_tags` instead
fetches its stem followed only by the realtime window
(`get_series_matching_tags_url`), ignoring its remaining optional
parameters. -/
theorem c2_amended_pipeline_refinement :
    (∀ (fetch : Fetch) (st : FredState) (rs re l o ob so : Option PyVal),
      get_all_sources fetch st rs re l o ob so
        = ⟨(pipelineSpec fetch st.source_stack "get_all_sources"
              (get_all_sources_url rs re l o ob so)).1,
           ⟨st.realtime_start, st.realtime_end,
            (pipelineSpec fetch st.source_stack "get_all_sources"
              (get_all_sources_url rs re l o ob so)).2,
            st.tag_stack⟩, []⟩)
  ∧ (∀ (fetch : Fetch) (st : FredState) (sid : PyVal) (rs re : Option PyVal)
        (stem : String) (pr : List String),
      get_a_source_stem sid = .ok (stem, pr) →
      get_a_source fetch st sid rs re
        = ⟨(pipelineSpec fetch st.source_stack "get_a_source"
              (get_a_source_url stem rs re)).1,
           ⟨st.realtime_start, st.realtime_end,
            (pipelineSpec fetch st.source_stack "get_a_source"
              (get_a_source_url stem rs re)).2,
            st.tag_stack⟩, pr⟩)
  ∧ (∀ (fetch : Fetch) (st : FredState) (sid : PyVal) (rs re l o ob so : Option PyVal)
        (stem : String) (pr : List String),
      get_releases_for_a_source_stem sid = .ok (stem, pr) →
      get_releases_for_a_source fetch st sid rs re l o ob so
        = ⟨(pipelineSpec fetch st.source_stack "get_releases_for_a_source"
              (get_releases_for_a_source_url stem rs re l o ob so)).1,
           ⟨st.realtime_start, st.realtime_end,
            (pipelineSpec fetch st.source_stack "get_releases_for_a_source"
              (get_releases_for_a_source_url stem rs re l o ob so)).2,
            st.tag_stack⟩, pr⟩)
  ∧ (∀ (fetch : Fetch) (st : FredState) (rs re tn tg se l o ob so : Option PyVal),
      get_tags fetch st rs re tn tg se l o ob so
        = ⟨(pipelineSpec fetch st.tag_stack "get_tags"
              (get_tags_url rs re tn tg se l o ob so)).1,
           ⟨st.realtime_start, st.realtime_end, st.source_stack,
            (pipelineSpec fetch st.tag_stack "get_tags"
              (get_tags_url rs re tn tg se l o ob so)).2⟩, []⟩)
  ∧ (∀ (fetch : Fetch) (st : FredState) (tn : PyVal) (rs re ex tg se l o ob so : Option PyVal),
      get_related_tags_for_a_tag fetch st tn rs re ex tg se l o ob so
        = ⟨(pipelineSpec fetch st.tag_stack "get_related_tags_for_a_tag"
              (get_related_tags_for_a_tag_url (get_related_tags_for_a_tag_stem tn).1
                rs re ex tg se l o ob so)).1,
           ⟨st.realtime_start, st.realtime_end, st.source_stack,
            (pipelineSpec fetch st.tag_stack "get_related_tags_for_a_tag"
              (get_related_tags_for_a_tag_url (get_related_tags_for_a_tag_stem tn).1
                rs re ex tg se l o ob so)).2⟩,
           (get_related_tags_for_a_tag_stem tn).2⟩)
  ∧ (∀ (fetch : Fetch) (st : FredState) (tn : PyVal) (ex rs re l o ob so : Option PyVal),
      get_series_matching_tags fetch st tn ex rs re l o ob so
        = ⟨(pipelineSpec fetch st.tag_stack "get_series_matching_tags"
              (get_series_matching_tags_url st tn rs re)).1,
           ⟨st.realtime_start, st.realtime_end, st.source_stack,
            (pipelineSpec fetch st.tag_stack "get_series_matching_tags"
              (get_series_matching_tags_url st tn rs re)).2⟩,
           (get_series_matching_tags_stem tn).2⟩) :=
  ⟨get_all_sources_pipeline, get_a_source_pipeline, get_releases_for_a_source_pipeline,
   get_tags_pipeline, get_related_tags_for_a_tag_pipeline, get_series_matching_tags_pipeline⟩

/-- Witness for C2 as amended, at a concrete `get_a_source` call. -/
theorem c2_amended_pipeline_refinement_witness :
    get_a_source fetchConst initState (.int 3) none none
      = ⟨(pipelineSpec fetchConst initState.source_stack "get_a_source"
            (get_a_source_url "source?source_id=3" none none)).1,
         ⟨initState.realtime_start, initState.realtime_end,
          (pipelineSpec fetchConst initState.source_stack "get_a_source"
            (get_a_source_url "source?source_id=3" none none)).2,
          initState.tag_stack⟩, []⟩ :=
  c2_amended_pipeline_refinement.2.1 fetchConst initState (.int 3) none none
    "source?source_id=3" [] rfl

/-- Counterexample to C4 as stated: when `str(source_id)` raises
`TypeError` in `get_a_source` or `get_releases_for_a_source`, the
method does NOT recover: the handler's own
`print("... %s ..." % source_id)` stringifies `source_id` again and
the re-raised `TypeError` propagates — nothing is printed, no fetch
happens (the oracle here always succeeds, yet the call errors), and
the state is unchanged. -/
theorem c4_counterexample :
    get_a_source fetchConst initState .bad none none = ⟨.error .typeError, initState, []⟩
  ∧ get_releases_for_a_source fetchConst initState .bad none none none none none none
      = ⟨.error .typeError, initState, []⟩ :=
  ⟨rfl, rfl⟩

/-- C4 as amended: in `get_related_tags_for_a_tag` and
`get_series_matching_tags`, a `TypeError` from `";".join(tag_names)`
is caught: the method prints "tag_names must be list or tuple" and
continues the normal pipeline with the URL stem lacking the joined
value (a malformed URL), still performing the fetch.  In
`get_a_source` and `get_releases_for_a_source`, however, a `TypeError`
from `str(source_id)` escapes: the handler's `%s`-formatting print
re-raises it, so the call propagates `TypeError` without printing or
fetching and leaves the state unchanged. -/
theorem c4_amended_join_recovers_str_reraises :
    (∀ (fetch : Fetch) (st : FredState) (tn : PyVal) (rs re ex tg se l o ob so : Option PyVal),
      pyJoin tn = .error () →
      get_related_tags_for_a_tag fetch st tn rs re ex tg se l o ob so
        = ⟨(pipelineSpec fetch st.tag_stack "get_related_tags_for_a_tag"
              (get_related_tags_for_a_tag_url "related_tags?tag_names="
                rs re ex tg se l o ob so)).1,
           ⟨st.realtime_start, st.realtime_end, st.source_stack,
            (pipelineSpec fetch st.tag_stack "get_related_tags_for_a_tag"
              (get_related_tags_for_a_tag_url "related_tags?tag_names="
                rs re ex tg se l o ob so)).2⟩,
           ["tag_names must be list or tuple"]⟩)
  ∧ (∀ (fetch : Fetch) (st : FredState) (tn : PyVal) (ex rs re l o ob so : Option PyVal),
      pyJoin tn = .error () →
      get_series_matching_tags fetch st tn ex rs re l o ob so
        = ⟨(pipelineSpec fetch st.tag_stack "get_series_matching_tags"
              ("tags/series?tag_names=" ++ getRealtimeDate st rs re)).1,
           ⟨st.realtime_start, st.realtime_end, st.source_stack,
            (pipelineSpec fetch st.tag_stack "get_series_matching_tags"
              ("tags/series?tag_names=" ++ getRealtimeDate st rs re)).2⟩,
           ["tag_names must be list or tuple"]⟩)
  ∧ (∀ (fetch : Fetch) (st : FredState) (sid : PyVal) (rs re : Option PyVal),
      pyStr sid = .error () →
      get_a_source fetch st sid rs re = ⟨.error .typeError, st, []⟩)
  ∧ (∀ (fetch : Fetch) (st : FredState) (sid : PyVal) (rs re l o ob so : Option PyVal),
      pyStr sid = .error () →
      get_releases_for_a_source fetch st sid rs re l o ob so
        = ⟨.error .typeError, st, []⟩) := by
  refine ⟨?_, ?_, ?_, ?_⟩
  · intro fetch st tn rs re ex tg se l o ob so h
    have hstem : get_related_tags_for_a_tag_stem tn
        = ("related_tags?tag_names=", ["tag_names must be list or tuple"]) := by
      simp [get_related_tags_for_a_tag_stem, h]
    rw [get_related_tags_for_a_tag_pipeline, hstem]
  · intro fetch st tn ex rs re l o ob so h
    have hstem : get_series_matching_tags_stem tn
        = ("tags/series?tag_names=", ["tag_names must be list or tuple"]) := by
      simp [get_series_matching_tags_stem, h]
    have hurl : get_series_matching_tags_url st tn rs re
        = "tags/series?tag_names=" ++ getRealtimeDate st rs re := by
      simp [get_series_matching_tags_url, hstem]
    rw [get_series_matching_tags_pipeline, hurl, hstem]
  · intro fetch st sid rs re h
    simp [get_a_source, get_a_source_stem, h]
  · intro fetch st sid rs re l o ob so h
    simp [get_releases_for_a_source, get_releases_for_a_source_stem, h]

/-- Witness for C4 as amended at concrete inputs: `7` is not joinable
(`";".join(7)` raises), `bad` is not stringifiable. -/
theorem c4_amended_join_recovers_str_reraises_witness :
    pyJoin (PyVal.int 7) = .error ()
  ∧ get_related_tags_for_a_tag fetchConst initState (.int 7)
        none none none none none none none none none
      = ⟨(pipelineSpec fetchConst initState.tag_stack "get_related_tags_for_a_tag"
            (get_related_tags_for_a_tag_url "related_tags?tag_names="
              none none none none none none none none none)).1,
         ⟨initState.realtime_start, initState.realtime_end, initState.source_stack,
          (pipelineSpec fetchConst initState.tag_stack "get_related_tags_for_a_tag"
            (get_related_tags_for_a_tag_url "related_tags?tag_names="
              none none none none none none none none none)).2⟩,
         ["tag_names must be list or tuple"]⟩
  ∧ pyStr PyVal.bad = .error ()
  ∧ get_a_source fetchConst initState .bad none none = ⟨.error PyErr.typeError, initState, []⟩ :=
  ⟨rfl,
   c4_amended_join_recovers_str_reraises.1 fetchConst initState (.int 7)
     none none none none none none none none none rfl,
   rfl,
   c4_amended_join_recovers_str_reraises.2.2.1 fetchConst initState .bad none none rfl⟩

end FullFred
